/-
Verification of the spacecraft attitude-control design notebook
(ae353-DP3-spacecraft, file kam_SpacecraftDemo-Template.ipynb).

The notebook derives, symbolically over exact arithmetic:
  - a 6-state nonlinear attitude dynamics model f (yaw, pitch, roll and
    body angular velocity, driven by four reaction-wheel torques),
  - a star-tracker sensor model g (image-plane coordinates per star),
  - a linearization get_model producing the Jacobians A, B,
and then attempts a pole-placement controller/observer design.

This file embeds those definitions over the real numbers, following the
notebook cell by cell: the physical parameters, rotation matrices, the
kinematic transformation, Euler's equations, the simplified closed-form f
and g exactly as printed by the notebook, and the Jacobian-based
linearizer.  The design cells (pole lists, observability stack, the
augmented closed-loop matrix, the Controller class) are embedded as the
data they actually contain.
-/
import Mathlib

noncomputable section

namespace Spacecraft

open Matrix

/-! ## Physical parameters (notebook cell fc94c423) -/

/-- Mass of the base. -/
def mb : ℝ := 6

/-- Base moment of inertia about the body x axis. -/
def Jxb : ℝ := 10

/-- Base moment of inertia about the body y axis. -/
def Jyb : ℝ := 10

/-- Base moment of inertia about the body z axis. -/
def Jzb : ℝ := 16

/-- Mass of each reaction wheel. -/
def mw : ℝ := 1

/-- Wheel moment of inertia (x). -/
def Jxw : ℝ := 0.075

/-- Wheel moment of inertia (y). -/
def Jyw : ℝ := 0.075

/-- Wheel moment of inertia (z). -/
def Jzw : ℝ := 0.125

/-- Distance from the body center to each wheel. -/
def lw : ℝ := 1.1

/-- Geometric torque factor of the 45-degree canted wheels:
`lt = lw * sqrt(2) / 2` in the notebook. -/
def lt : ℝ := lw * Real.sqrt 2 / 2

/-- Resultant torque of wheel 1: `T1 = -tau_1 * [[lt], [0], [lt]]`. -/
def T1 (τ : ℝ) : Fin 3 → ℝ := (-τ) • ![lt, 0, lt]

/-- Resultant torque of wheel 2: `T2 = -tau_2 * [[-lt], [0], [lt]]`. -/
def T2 (τ : ℝ) : Fin 3 → ℝ := (-τ) • ![-lt, 0, lt]

/-- Resultant torque of wheel 3: `T3 = -tau_3 * [[0], [lt], [lt]]`. -/
def T3 (τ : ℝ) : Fin 3 → ℝ := (-τ) • ![0, lt, lt]

/-- Resultant torque of wheel 4: `T4 = -tau_4 * [[0], [-lt], [lt]]`. -/
def T4 (τ : ℝ) : Fin 3 → ℝ := (-τ) • ![0, -lt, lt]

/-- Net torque `T = T1 + T2 + T3 + T4`. -/
def Tnet (τ1 τ2 τ3 τ4 : ℝ) : Fin 3 → ℝ := T1 τ1 + T2 τ2 + T3 τ3 + T4 τ4

/-- Effective moment of inertia of spacecraft and wheels together about x:
`Jx = Jxb + 4 * mw * lw**2`. -/
def Jx : ℝ := Jxb + 4 * mw * lw ^ 2

/-- Effective moment of inertia about y: `Jy = Jyb + 4 * mw * lw**2`. -/
def Jy : ℝ := Jyb + 4 * mw * lw ^ 2

/-- Effective moment of inertia about z: `Jz = Jzb + 4 * mw * lw**2`. -/
def Jz : ℝ := Jzb + 4 * mw * lw ^ 2

/-! ## Rotation matrices (same cell) -/

/-- Yaw rotation `Rz`. -/
def Rz (ψ : ℝ) : Matrix (Fin 3) (Fin 3) ℝ :=
  !![Real.cos ψ, -Real.sin ψ, 0; Real.sin ψ, Real.cos ψ, 0; 0, 0, 1]

/-- Pitch rotation `Ry`. -/
def Ry (θ : ℝ) : Matrix (Fin 3) (Fin 3) ℝ :=
  !![Real.cos θ, 0, Real.sin θ; 0, 1, 0; -Real.sin θ, 0, Real.cos θ]

/-- Roll rotation `Rx`. -/
def Rx (φ : ℝ) : Matrix (Fin 3) (Fin 3) ℝ :=
  !![1, 0, 0; 0, Real.cos φ, -Real.sin φ; 0, Real.sin φ, Real.cos φ]

/-- Basis vector `ex`. -/
def ex : Fin 3 → ℝ := ![1, 0, 0]

/-- Basis vector `ey`. -/
def ey : Fin 3 → ℝ := ![0, 1, 0]

/-- Basis vector `ez`. -/
def ez : Fin 3 → ℝ := ![0, 0, 1]

/-- The matrix inverted to obtain the transformation from body angular
velocity to Euler-angle rates: the notebook's
`hstack((Ry @ Rx).T @ ez, Rx.T @ ey, ex)` (whose inverse is `M`). -/
def Nmat (θ φ : ℝ) : Matrix (Fin 3) (Fin 3) ℝ :=
  Matrix.of fun i j =>
    ![((Ry θ * Rx φ)ᵀ).mulVec ez i, ((Rx φ)ᵀ).mulVec ey i, ex i] j

/-- The kinematic transformation `M` from body angular velocity to
Euler-angle rates, the inverse of `Nmat`. -/
def Mkin (θ φ : ℝ) : Matrix (Fin 3) (Fin 3) ℝ := (Nmat θ φ)⁻¹

/-- Euler's rigid-body equations, exactly the notebook's `euler` matrix. -/
def euler (wx wy wz τ1 τ2 τ3 τ4 : ℝ) : Fin 3 → ℝ :=
  ![(1 / Jx) * (Tnet τ1 τ2 τ3 τ4 0 + (Jy - Jz) * wy * wz),
    (1 / Jy) * (Tnet τ1 τ2 τ3 τ4 1 + (Jz - Jx) * wz * wx),
    (1 / Jz) * (Tnet τ1 τ2 τ3 τ4 2 + (Jx - Jy) * wx * wy)]

/-- The simplified equations of motion, exactly as the notebook prints its
final `f` (the value of `sym.simplify(Matrix.vstack(M * [[w_x],[w_y],[w_z]],
euler))`).  This is the dynamic model used by every later cell. -/
def fClosed (ψ θ φ wx wy wz τ1 τ2 τ3 τ4 : ℝ) : Fin 6 → ℝ :=
  ![(wy * Real.sin φ + wz * Real.cos φ) / Real.cos θ,
    wy * Real.cos φ - wz * Real.sin φ,
    wx + wy * Real.sin φ * Real.tan θ + wz * Real.cos φ * Real.tan θ,
    -55 * Real.sqrt 2 * τ1 / 1484 + 55 * Real.sqrt 2 * τ2 / 1484 -
      150 * wy * wz / 371,
    -55 * Real.sqrt 2 * τ3 / 1484 + 55 * Real.sqrt 2 * τ4 / 1484 +
      150 * wx * wz / 371,
    -55 * Real.sqrt 2 * (τ1 + τ2 + τ3 + τ4) / 2084]

/-! ## Helper lemmas about the kinematic transformation -/

/-- Row 3 of the printed `f`. -/
lemma fClosed_apply3 (ψ θ φ wx wy wz τ1 τ2 τ3 τ4 : ℝ) :
    fClosed ψ θ φ wx wy wz τ1 τ2 τ3 τ4 3 =
      -55 * Real.sqrt 2 * τ1 / 1484 + 55 * Real.sqrt 2 * τ2 / 1484 -
        150 * wy * wz / 371 := rfl

/-- Row 4 of the printed `f`. -/
lemma fClosed_apply4 (ψ θ φ wx wy wz τ1 τ2 τ3 τ4 : ℝ) :
    fClosed ψ θ φ wx wy wz τ1 τ2 τ3 τ4 4 =
      -55 * Real.sqrt 2 * τ3 / 1484 + 55 * Real.sqrt 2 * τ4 / 1484 +
        150 * wx * wz / 371 := rfl

/-- Row 5 of the printed `f`. -/
lemma fClosed_apply5 (ψ θ φ wx wy wz τ1 τ2 τ3 τ4 : ℝ) :
    fClosed ψ θ φ wx wy wz τ1 τ2 τ3 τ4 5 =
      -55 * Real.sqrt 2 * (τ1 + τ2 + τ3 + τ4) / 2084 := rfl

/-- Explicit entries of `Nmat`. -/
lemma Nmat_eq (θ φ : ℝ) :
    Nmat θ φ =
      !![-Real.sin θ, 0, 1;
         Real.sin φ * Real.cos θ, Real.cos φ, 0;
         Real.cos φ * Real.cos θ, -Real.sin φ, 0] := by
  ext i j
  fin_cases i <;> fin_cases j <;>
    simp [Nmat, Ry, Rx, ex, ey, ez, Matrix.mulVec, Matrix.dotProduct,
      Matrix.mul_apply, Fin.sum_univ_three, Matrix.vecHead, Matrix.vecTail] <;>
    try ring

/-- Determinant of `Nmat` is `-cos θ`, so `Nmat` is invertible exactly away
from the kinematic singularity `cos θ = 0`. -/
lemma Nmat_det (θ φ : ℝ) : (Nmat θ φ).det = -Real.cos θ := by
  rw [Nmat_eq, Matrix.det_fin_three]
  simp [Matrix.vecHead, Matrix.vecTail]
  linear_combination (-Real.cos θ) * Real.sin_sq_add_cos_sq φ

/-- The angle-rate components of the printed `f` solve the kinematic
equation: multiplying them by `Nmat` gives back the body angular
velocity. -/
lemma Nmat_mulVec_rates (ψ θ φ wx wy wz τ1 τ2 τ3 τ4 : ℝ)
    (hθ : Real.cos θ ≠ 0) :
    (Nmat θ φ).mulVec
      ![fClosed ψ θ φ wx wy wz τ1 τ2 τ3 τ4 0,
        fClosed ψ θ φ wx wy wz τ1 τ2 τ3 τ4 1,
        fClosed ψ θ φ wx wy wz τ1 τ2 τ3 τ4 2] = ![wx, wy, wz] := by
  rw [Nmat_eq]
  funext k
  fin_cases k
  · simp [fClosed, Matrix.mulVec, Matrix.dotProduct, Fin.sum_univ_three,
      Real.tan_eq_sin_div_cos]
    field_simp
    ring
  · simp [fClosed, Matrix.mulVec, Matrix.dotProduct, Fin.sum_univ_three]
    field_simp
    linear_combination Real.cos θ * wy * Real.sin_sq_add_cos_sq φ
  · simp [fClosed, Matrix.mulVec, Matrix.dotProduct, Fin.sum_univ_three]
    field_simp
    linear_combination Real.cos θ * wz * Real.sin_sq_add_cos_sq φ

/-- The angular-acceleration rows of the printed `f` are exactly Euler's
rigid-body equations with the effective inertias. -/
lemma fClosed_euler (ψ θ φ wx wy wz τ1 τ2 τ3 τ4 : ℝ) :
    fClosed ψ θ φ wx wy wz τ1 τ2 τ3 τ4 3 = euler wx wy wz τ1 τ2 τ3 τ4 0 ∧
    fClosed ψ θ φ wx wy wz τ1 τ2 τ3 τ4 4 = euler wx wy wz τ1 τ2 τ3 τ4 1 ∧
    fClosed ψ θ φ wx wy wz τ1 τ2 τ3 τ4 5 = euler wx wy wz τ1 τ2 τ3 τ4 2 := by
  refine ⟨?_, ?_, ?_⟩
  · rw [fClosed_apply3]
    simp [euler, Tnet, T1, T2, T3, T4, Jx, Jy, Jz, Jxb, Jyb, Jzb,
      mw, lw, lt, Pi.add_apply, Pi.smul_apply, smul_eq_mul]
    ring
  · rw [fClosed_apply4]
    simp [euler, Tnet, T1, T2, T3, T4, Jx, Jy, Jz, Jxb, Jyb, Jzb,
      mw, lw, lt, Pi.add_apply, Pi.smul_apply, smul_eq_mul]
    ring
  · rw [fClosed_apply5]
    simp [euler, Tnet, T1, T2, T3, T4, Jx, Jy, Jz, Jxb, Jyb, Jzb,
      mw, lw, lt, Pi.add_apply, Pi.smul_apply, smul_eq_mul]
    ring

/-- C4: away from the kinematic singularity (`cos θ ≠ 0`), the dynamic model
`f` returns the state derivative whose Euler-angle-rate rows are the body
angular velocity transformed through the inverse `Mkin` of the kinematic
transformation built from the yaw-pitch-roll rotations, and whose
angular-acceleration rows follow Euler's rigid-body equations with the
effective inertias `Jx = Jxb + 4*mw*lw^2` (and likewise `Jy`, `Jz`), i.e.
base body values plus the fixed wheel offset `4*mw*lw^2` per axis. -/
theorem dynamics_model_kinematics_and_euler
    (ψ θ φ wx wy wz τ1 τ2 τ3 τ4 : ℝ) (hθ : Real.cos θ ≠ 0) :
    (Mkin θ φ).mulVec ![wx, wy, wz] =
      ![fClosed ψ θ φ wx wy wz τ1 τ2 τ3 τ4 0,
        fClosed ψ θ φ wx wy wz τ1 τ2 τ3 τ4 1,
        fClosed ψ θ φ wx wy wz τ1 τ2 τ3 τ4 2] ∧
    fClosed ψ θ φ wx wy wz τ1 τ2 τ3 τ4 3 = euler wx wy wz τ1 τ2 τ3 τ4 0 ∧
    fClosed ψ θ φ wx wy wz τ1 τ2 τ3 τ4 4 = euler wx wy wz τ1 τ2 τ3 τ4 1 ∧
    fClosed ψ θ φ wx wy wz τ1 τ2 τ3 τ4 5 = euler wx wy wz τ1 τ2 τ3 τ4 2 := by
  have hu : IsUnit (Nmat θ φ).det := by
    rw [Nmat_det]
    exact isUnit_iff_ne_zero.2 (neg_ne_zero.2 hθ)
  have hr := Nmat_mulVec_rates ψ θ φ wx wy wz τ1 τ2 τ3 τ4 hθ
  refine ⟨?_, fClosed_euler ψ θ φ wx wy wz τ1 τ2 τ3 τ4⟩
  calc (Mkin θ φ).mulVec ![wx, wy, wz]
      = (Nmat θ φ)⁻¹.mulVec ((Nmat θ φ).mulVec
          ![fClosed ψ θ φ wx wy wz τ1 τ2 τ3 τ4 0,
            fClosed ψ θ φ wx wy wz τ1 τ2 τ3 τ4 1,
            fClosed ψ θ φ wx wy wz τ1 τ2 τ3 τ4 2]) := by rw [hr]; rfl
    _ = ((Nmat θ φ)⁻¹ * Nmat θ φ).mulVec
          ![fClosed ψ θ φ wx wy wz τ1 τ2 τ3 τ4 0,
            fClosed ψ θ φ wx wy wz τ1 τ2 τ3 τ4 1,
            fClosed ψ θ φ wx wy wz τ1 τ2 τ3 τ4 2] := by
        rw [Matrix.mulVec_mulVec]
    _ = ![fClosed ψ θ φ wx wy wz τ1 τ2 τ3 τ4 0,
          fClosed ψ θ φ wx wy wz τ1 τ2 τ3 τ4 1,
          fClosed ψ θ φ wx wy wz τ1 τ2 τ3 τ4 2] := by
        rw [Matrix.nonsing_inv_mul _ hu, Matrix.one_mulVec]

/-- Witness for C4 at the zero equilibrium. -/
theorem dynamics_model_kinematics_and_euler_witness :
    Real.cos 0 ≠ 0 ∧
    ((Mkin 0 0).mulVec ![0, 0, 0] =
      ![fClosed 0 0 0 0 0 0 0 0 0 0 0,
        fClosed 0 0 0 0 0 0 0 0 0 0 1,
        fClosed 0 0 0 0 0 0 0 0 0 0 2] ∧
     fClosed 0 0 0 0 0 0 0 0 0 0 3 = euler 0 0 0 0 0 0 0 0 ∧
     fClosed 0 0 0 0 0 0 0 0 0 0 4 = euler 0 0 0 0 0 0 0 1 ∧
     fClosed 0 0 0 0 0 0 0 0 0 0 5 = euler 0 0 0 0 0 0 0 2) :=
  ⟨by simp, dynamics_model_kinematics_and_euler 0 0 0 0 0 0 0 0 0 0 (by simp)⟩

/-! ## Sensor model (notebook cell b1f4a998) -/

/-- Scope radius `r = 0.8 / 2.1`. -/
def r : ℝ := 0.8 / 2.1

/-- Position of a star in the space frame, from right ascension `α` and
declination `δ`. -/
def p_star_in_space (α δ : ℝ) : Fin 3 → ℝ :=
  ![Real.cos α * Real.cos δ, Real.sin α * Real.cos δ, Real.sin δ]

/-- Orientation of the body frame in the space frame:
`R_body_in_space = Rz * Ry * Rx`. -/
def R_body_in_space (ψ θ φ : ℝ) : Matrix (Fin 3) (Fin 3) ℝ :=
  Rz ψ * Ry θ * Rx φ

/-- Position of the star in the body frame:
`p_star_in_body = R_body_in_space.T * p_star_in_space`. -/
def p_star_in_body (ψ θ φ α δ : ℝ) : Fin 3 → ℝ :=
  ((R_body_in_space ψ θ φ)ᵀ).mulVec (p_star_in_space α δ)

/-- Position of the star in the image frame: perspective projection of the
body-frame position (y and z divided by x) scaled by `1 / r`. -/
def p_star_in_image (ψ θ φ α δ : ℝ) : Fin 2 → ℝ :=
  ![(1 / r) * (p_star_in_body ψ θ φ α δ 1 / p_star_in_body ψ θ φ α δ 0),
    (1 / r) * (p_star_in_body ψ θ φ α δ 2 / p_star_in_body ψ θ φ α δ 0)]

/-- The sensor model for each star, exactly as the notebook prints its
simplified `g` (the value of `sym.simplify(p_star_in_image)`). -/
def g (ψ θ φ α δ : ℝ) : Fin 2 → ℝ :=
  ![21 * (Real.sin δ * Real.sin φ * Real.cos θ +
        Real.sin φ * Real.sin θ * Real.cos δ * Real.cos (α - ψ) +
        Real.sin (α - ψ) * Real.cos δ * Real.cos φ) /
      (8 * (-(Real.sin δ * Real.sin θ) +
        Real.cos δ * Real.cos θ * Real.cos (α - ψ))),
    21 * (Real.sin δ * Real.cos φ * Real.cos θ -
        Real.sin φ * Real.sin (α - ψ) * Real.cos δ +
        Real.sin θ * Real.cos δ * Real.cos φ * Real.cos (α - ψ)) /
      (8 * (-(Real.sin δ * Real.sin θ) +
        Real.cos δ * Real.cos θ * Real.cos (α - ψ)))]

/-- Body-frame x component of the star direction. -/
lemma pbody0 (ψ θ φ α δ : ℝ) :
    p_star_in_body ψ θ φ α δ 0 =
      -(Real.sin δ * Real.sin θ) +
        Real.cos δ * Real.cos θ * Real.cos (α - ψ) := by
  simp [p_star_in_body, R_body_in_space, p_star_in_space, Rz, Ry, Rx,
    Matrix.mulVec, Matrix.dotProduct, Matrix.mul_apply, Matrix.transpose_apply,
    Fin.sum_univ_three, Matrix.vecHead, Matrix.vecTail, Real.cos_sub,
    Real.sin_sub]
  ring

/-- Body-frame y component of the star direction. -/
lemma pbody1 (ψ θ φ α δ : ℝ) :
    p_star_in_body ψ θ φ α δ 1 =
      Real.sin δ * Real.sin φ * Real.cos θ +
        Real.sin φ * Real.sin θ * Real.cos δ * Real.cos (α - ψ) +
        Real.sin (α - ψ) * Real.cos δ * Real.cos φ := by
  simp [p_star_in_body, R_body_in_space, p_star_in_space, Rz, Ry, Rx,
    Matrix.mulVec, Matrix.dotProduct, Matrix.mul_apply, Matrix.transpose_apply,
    Fin.sum_univ_three, Matrix.vecHead, Matrix.vecTail, Real.cos_sub,
    Real.sin_sub]
  ring

/-- Body-frame z component of the star direction. -/
lemma pbody2 (ψ θ φ α δ : ℝ) :
    p_star_in_body ψ θ φ α δ 2 =
      Real.sin δ * Real.cos φ * Real.cos θ -
        Real.sin φ * Real.sin (α - ψ) * Real.cos δ +
        Real.sin θ * Real.cos δ * Real.cos φ * Real.cos (α - ψ) := by
  simp [p_star_in_body, R_body_in_space, p_star_in_space, Rz, Ry, Rx,
    Matrix.mulVec, Matrix.dotProduct, Matrix.mul_apply, Matrix.transpose_apply,
    Fin.sum_univ_three, Matrix.vecHead, Matrix.vecTail, Real.cos_sub,
    Real.sin_sub]
  ring

/-- The printed closed-form `g` agrees with the constructed perspective
projection `p_star_in_image` everywhere. -/
lemma g_eq_image (ψ θ φ α δ : ℝ) :
    g ψ θ φ α δ = p_star_in_image ψ θ φ α δ := by
  have hr : (1 : ℝ) / r = 21 / 8 := by norm_num [r]
  simp only [g, p_star_in_image]
  rw [pbody0, pbody1, pbody2, hr, div_mul_div_comm, div_mul_div_comm]

/-- C5: for a star in front of the scope boresight (body-frame x component
positive), the sensor model `g` is exactly the perspective projection of
the star direction rotated into the body frame by the transpose of
`Rz * Ry * Rx`, with y and z divided by x and scaled by `1 / r`,
`r = 0.8 / 2.1`. -/
theorem sensor_model_is_scaled_projection (ψ θ φ α δ : ℝ)
    (h : 0 < p_star_in_body ψ θ φ α δ 0) :
    g ψ θ φ α δ = p_star_in_image ψ θ φ α δ :=
  g_eq_image ψ θ φ α δ

/-- Witness for C5 at the identity attitude and the star `(0, 0)`. -/
theorem sensor_model_is_scaled_projection_witness :
    0 < p_star_in_body 0 0 0 0 0 0 ∧
    g 0 0 0 0 0 = p_star_in_image 0 0 0 0 0 := by
  have h : 0 < p_star_in_body 0 0 0 0 0 0 := by
    rw [pbody0]
    simp
  exact ⟨h, sensor_model_is_scaled_projection 0 0 0 0 0 h⟩

/-- C10: the sensor model depends on the yaw `ψ` and the right ascension
`α` only through their difference: shifting both leaves every star
measurement unchanged, for the printed `g` and for the constructed
projection alike. -/
theorem sensor_model_yaw_shift_invariance (ψ θ φ α δ : ℝ) :
    g ψ θ φ α δ = g 0 θ φ (α - ψ) δ ∧
    p_star_in_image ψ θ φ α δ = p_star_in_image 0 θ φ (α - ψ) δ := by
  have hg : g ψ θ φ α δ = g 0 θ φ (α - ψ) δ := by
    funext i
    fin_cases i <;> simp [g]
  exact ⟨hg, by rw [← g_eq_image, ← g_eq_image]; exact hg⟩

/-! ## Linearizer (notebook cell 075fe4d6, `get_model`)

The notebook forms `A_sym = f.jacobian([psi, theta, phi, w_x, w_y, w_z])`
and `B_sym = f.jacobian([tau_1, ..., tau_4])` and evaluates them at the
equilibrium.  Here the Jacobians are embedded as matrices of partial
derivatives of the closed-form `f`.  As in the notebook, no singularity
check of any kind is performed before evaluating. -/

/-- Derivative of an affine function. -/
lemma deriv_affine (a b x : ℝ) : deriv (fun t => a * t + b) x = a := by
  have h : deriv (fun t : ℝ => a * t) x = a * deriv (fun t : ℝ => t) x :=
    deriv_const_mul_field a
  rw [deriv_add_const, h, deriv_id'', mul_one]

/-- The dynamics Jacobian with respect to the state, `A = df/dstate`,
evaluated at the given operating point. -/
def A_lin (ψ θ φ wx wy wz τ1 τ2 τ3 τ4 : ℝ) : Matrix (Fin 6) (Fin 6) ℝ :=
  Matrix.of fun i j =>
    ![deriv (fun t => fClosed t θ φ wx wy wz τ1 τ2 τ3 τ4 i) ψ,
      deriv (fun t => fClosed ψ t φ wx wy wz τ1 τ2 τ3 τ4 i) θ,
      deriv (fun t => fClosed ψ θ t wx wy wz τ1 τ2 τ3 τ4 i) φ,
      deriv (fun t => fClosed ψ θ φ t wy wz τ1 τ2 τ3 τ4 i) wx,
      deriv (fun t => fClosed ψ θ φ wx t wz τ1 τ2 τ3 τ4 i) wy,
      deriv (fun t => fClosed ψ θ φ wx wy t τ1 τ2 τ3 τ4 i) wz] j

/-- The dynamics Jacobian with respect to the input, `B = df/dinput`,
evaluated at the given operating point. -/
def B_lin (ψ θ φ wx wy wz τ1 τ2 τ3 τ4 : ℝ) : Matrix (Fin 6) (Fin 4) ℝ :=
  Matrix.of fun i j =>
    ![deriv (fun t => fClosed ψ θ φ wx wy wz t τ2 τ3 τ4 i) τ1,
      deriv (fun t => fClosed ψ θ φ wx wy wz τ1 t τ3 τ4 i) τ2,
      deriv (fun t => fClosed ψ θ φ wx wy wz τ1 τ2 t τ4 i) τ3,
      deriv (fun t => fClosed ψ θ φ wx wy wz τ1 τ2 τ3 t i) τ4] j

/-- An equilibrium operating point, the arguments of `get_model`:
`(psi_e, theta_e, phi_e, w_x_e, w_y_e, w_z_e, tau_1_e, ..., tau_4_e)`. -/
abbrev Equilib : Type := ℝ × ℝ × ℝ × ℝ × ℝ × ℝ × ℝ × ℝ × ℝ × ℝ

/-- The linearizer: returns the pair `(A, B)` of Jacobians evaluated at the
equilibrium, exactly as the notebook's `get_model`. -/
def get_model : Equilib → Matrix (Fin 6) (Fin 6) ℝ × Matrix (Fin 6) (Fin 4) ℝ
  | (ψ, θ, φ, wx, wy, wz, τ1, τ2, τ3, τ4) =>
    (A_lin ψ θ φ wx wy wz τ1 τ2 τ3 τ4, B_lin ψ θ φ wx wy wz τ1 τ2 τ3 τ4)

/-- The constant value of the input Jacobian, to which `B_lin` evaluates at
every operating point. -/
def Bconst : Matrix (Fin 6) (Fin 4) ℝ :=
  !![0, 0, 0, 0;
     0, 0, 0, 0;
     0, 0, 0, 0;
     -55 * Real.sqrt 2 / 1484, 55 * Real.sqrt 2 / 1484, 0, 0;
     0, 0, -55 * Real.sqrt 2 / 1484, 55 * Real.sqrt 2 / 1484;
     -55 * Real.sqrt 2 / 2084, -55 * Real.sqrt 2 / 2084,
       -55 * Real.sqrt 2 / 2084, -55 * Real.sqrt 2 / 2084]

/-- C9: the input Jacobian `B` returned by the linearizer is the same
constant 6 x 4 matrix at every equilibrium operating point: the wheel
torques enter `f` only linearly with constant coefficients. -/
theorem input_jacobian_is_constant (ψ θ φ wx wy wz τ1 τ2 τ3 τ4 : ℝ) :
    (get_model (ψ, θ, φ, wx, wy, wz, τ1, τ2, τ3, τ4)).2 = Bconst := by
  show B_lin ψ θ φ wx wy wz τ1 τ2 τ3 τ4 = Bconst
  ext i j
  fin_cases i <;> fin_cases j
  · exact deriv_const _ _
  · exact deriv_const _ _
  · exact deriv_const _ _
  · exact deriv_const _ _
  · exact deriv_const _ _
  · exact deriv_const _ _
  · exact deriv_const _ _
  · exact deriv_const _ _
  · exact deriv_const _ _
  · exact deriv_const _ _
  · exact deriv_const _ _
  · exact deriv_const _ _
  · show deriv (fun t => -55 * Real.sqrt 2 * t / 1484 +
        55 * Real.sqrt 2 * τ2 / 1484 - 150 * wy * wz / 371) τ1 =
        -55 * Real.sqrt 2 / 1484
    rw [show (fun t : ℝ => -55 * Real.sqrt 2 * t / 1484 +
        55 * Real.sqrt 2 * τ2 / 1484 - 150 * wy * wz / 371) =
        fun t => (-55 * Real.sqrt 2 / 1484) * t +
        (55 * Real.sqrt 2 * τ2 / 1484 - 150 * wy * wz / 371) from
      by funext t; ring]
    exact deriv_affine _ _ _
  · show deriv (fun t => -55 * Real.sqrt 2 * τ1 / 1484 +
        55 * Real.sqrt 2 * t / 1484 - 150 * wy * wz / 371) τ2 =
        55 * Real.sqrt 2 / 1484
    rw [show (fun t : ℝ => -55 * Real.sqrt 2 * τ1 / 1484 +
        55 * Real.sqrt 2 * t / 1484 - 150 * wy * wz / 371) =
        fun t => (55 * Real.sqrt 2 / 1484) * t +
        (-55 * Real.sqrt 2 * τ1 / 1484 - 150 * wy * wz / 371) from
      by funext t; ring]
    exact deriv_affine _ _ _
  · exact deriv_const _ _
  · exact deriv_const _ _
  · exact deriv_const _ _
  · exact deriv_const _ _
  · show deriv (fun t => -55 * Real.sqrt 2 * t / 1484 +
        55 * Real.sqrt 2 * τ4 / 1484 + 150 * wx * wz / 371) τ3 =
        -55 * Real.sqrt 2 / 1484
    rw [show (fun t : ℝ => -55 * Real.sqrt 2 * t / 1484 +
        55 * Real.sqrt 2 * τ4 / 1484 + 150 * wx * wz / 371) =
        fun t => (-55 * Real.sqrt 2 / 1484) * t +
        (55 * Real.sqrt 2 * τ4 / 1484 + 150 * wx * wz / 371) from
      by funext t; ring]
    exact deriv_affine _ _ _
  · show deriv (fun t => -55 * Real.sqrt 2 * τ3 / 1484 +
        55 * Real.sqrt 2 * t / 1484 + 150 * wx * wz / 371) τ4 =
        55 * Real.sqrt 2 / 1484
    rw [show (fun t : ℝ => -55 * Real.sqrt 2 * τ3 / 1484 +
        55 * Real.sqrt 2 * t / 1484 + 150 * wx * wz / 371) =
        fun t => (55 * Real.sqrt 2 / 1484) * t +
        (-55 * Real.sqrt 2 * τ3 / 1484 + 150 * wx * wz / 371) from
      by funext t; ring]
    exact deriv_affine _ _ _
  · show deriv (fun t => -55 * Real.sqrt 2 * (t + τ2 + τ3 + τ4) / 2084) τ1 =
        -55 * Real.sqrt 2 / 2084
    rw [show (fun t : ℝ => -55 * Real.sqrt 2 * (t + τ2 + τ3 + τ4) / 2084) =
        fun t => (-55 * Real.sqrt 2 / 2084) * t +
        (-55 * Real.sqrt 2 * (τ2 + τ3 + τ4) / 2084) from by funext t; ring]
    exact deriv_affine _ _ _
  · show deriv (fun t => -55 * Real.sqrt 2 * (τ1 + t + τ3 + τ4) / 2084) τ2 =
        -55 * Real.sqrt 2 / 2084
    rw [show (fun t : ℝ => -55 * Real.sqrt 2 * (τ1 + t + τ3 + τ4) / 2084) =
        fun t => (-55 * Real.sqrt 2 / 2084) * t +
        (-55 * Real.sqrt 2 * (τ1 + τ3 + τ4) / 2084) from by funext t; ring]
    exact deriv_affine _ _ _
  · show deriv (fun t => -55 * Real.sqrt 2 * (τ1 + τ2 + t + τ4) / 2084) τ3 =
        -55 * Real.sqrt 2 / 2084
    rw [show (fun t : ℝ => -55 * Real.sqrt 2 * (τ1 + τ2 + t + τ4) / 2084) =
        fun t => (-55 * Real.sqrt 2 / 2084) * t +
        (-55 * Real.sqrt 2 * (τ1 + τ2 + τ4) / 2084) from by funext t; ring]
    exact deriv_affine _ _ _
  · show deriv (fun t => -55 * Real.sqrt 2 * (τ1 + τ2 + τ3 + t) / 2084) τ4 =
        -55 * Real.sqrt 2 / 2084
    rw [show (fun t : ℝ => -55 * Real.sqrt 2 * (τ1 + τ2 + τ3 + t) / 2084) =
        fun t => (-55 * Real.sqrt 2 / 2084) * t +
        (-55 * Real.sqrt 2 * (τ1 + τ2 + τ3) / 2084) from by funext t; ring]
    exact deriv_affine _ _ _

/-- C6: the linearizer has no singularity guard.  Its `A` Jacobian entry
(0, 5) is `cos φ / cos θ` at every operating point (including ones at the
kinematic singularity), and `cos (π/2) = 0`: at pitch `θ = π/2` the exact
entry is a division by zero, yet `get_model` still returns matrices and no
error of any kind is raised (no `DomainError` exists in the notebook). -/
theorem linearizer_has_no_singularity_guard :
    (∀ ψ θ φ wx wy wz τ1 τ2 τ3 τ4 : ℝ,
      (get_model (ψ, θ, φ, wx, wy, wz, τ1, τ2, τ3, τ4)).1 0 5 =
        Real.cos φ / Real.cos θ) ∧
    Real.cos (Real.pi / 2) = 0 := by
  constructor
  · intro ψ θ φ wx wy wz τ1 τ2 τ3 τ4
    show deriv (fun t => (wy * Real.sin φ + t * Real.cos φ) / Real.cos θ) wz =
      Real.cos φ / Real.cos θ
    have h : deriv (fun t : ℝ => t * Real.cos φ) wz =
        deriv (fun t : ℝ => t) wz * Real.cos φ := deriv_mul_const_field _
    rw [deriv_div_const, deriv_const_add, h, deriv_id'', one_mul]
  · exact Real.cos_pi_div_two

/-- Shape of the placeholder that the sensor-linearization cell
(48d1be2c) substitutes for the sensor model before taking its Jacobians:
the cell begins `g = sym.Matrix([])`, overwriting `g` with the empty
0 x 0 matrix, and then builds `C_num` and `D_num` from Jacobians of that
placeholder (the cell moreover contains a stray `.astype(float)`
continuation line, a syntax error, so it never runs and `C`, `D` are never
assigned). -/
def g_placeholder_shape : ℕ × ℕ := (0, 0)

/-! ## Design cells

The notebook's design section is a template with recorded failures: the
`get_model` cell ends in `NameError: name 'A' is not defined` (its own saved
output), the sensor-linearization cell overwrites `g` with the empty matrix
`sym.Matrix([])` and contains a syntax error, the controller and observer
cells call `signal.place_poles` with the two-element pole list `[-1., -1.]`
for the six-state model, the observability cell stacks only
`[[C], [C @ A], [C @ A @ A]]` and merely prints `matrix_rank(Wo)`, and the
`F` cell uses `np.zeros((2, 2))` as the lower-left block.  No
`UnreachableDesign`, `UnobservableDesign`, `UnstableDesign` or `DomainError`
appears anywhere in the notebook. -/

/-- The pole list of the controller-design cell:
`K = signal.place_poles(A, B, [-1., -1.]).gain_matrix`. -/
def controllerPoles : List ℝ := [-1, -1]

/-- The pole list of the observer-design cell:
`L = signal.place_poles(A.T, C.T, [-1., -1.]).gain_matrix.T`. -/
def observerPoles : List ℝ := [-1, -1]

/-- The state dimension of the model: `f` has six rows. -/
def stateDim : ℕ := 6

/-- C1 (code-bug evidence): the controller-design cell passes a pole list
of length 2, not one pole per state of the 6-state model, so
`signal.place_poles` cannot place the 6 closed-loop eigenvalues the claim
describes; it rejects the call instead of returning a gain. -/
theorem controller_pole_list_is_not_six_poles :
    controllerPoles.length = 2 ∧ controllerPoles.length ≠ stateDim := by
  constructor
  · rfl
  · norm_num [controllerPoles, stateDim]

/-- Shape of the lower-left block used in the `F` cell: `np.zeros((2, 2))`. -/
def F_zerosShape : ℕ × ℕ := (2, 2)

/-- Shape of the lower-right block `A - L @ C` of the `F` cell for the
six-state model. -/
def F_lowerRightShape : ℕ × ℕ := (6, 6)

/-- C2 (code-bug evidence): the `F` cell's zero block is 2 x 2, not the
6 x 6 zero block of the augmented 12-dimensional matrix the claim
describes; its row count does not even match the adjacent `A - L @ C`
block, so `np.block` rejects the construction. -/
theorem F_zero_block_shape_mismatch :
    F_zerosShape ≠ (6, 6) ∧
    F_zerosShape.1 ≠ F_lowerRightShape.1 ∧
    6 + F_zerosShape.1 ≠ 12 := by
  refine ⟨by decide, by decide, by decide⟩

/-! ## Observability stack (notebook cell b5a3d9c0)

`Wo = np.block([[C], [C @ A], [C @ A @ A]])` stacks exactly three blocks.
`WoSpec` is the matrix the claim describes (stacking `C * A ^ i` for
`i = 0 .. 5`, one block per state dimension), written down for comparison. -/

/-- Convenient lemmas for reading entries of a 6-vector literal. -/
lemma vec6_at2 {α : Type} (a0 a1 a2 a3 a4 a5 : α) :
    ![a0, a1, a2, a3, a4, a5] (2 : Fin 6) = a2 := rfl

/-- Entry 3 of a 6-vector literal. -/
lemma vec6_at3 {α : Type} (a0 a1 a2 a3 a4 a5 : α) :
    ![a0, a1, a2, a3, a4, a5] (3 : Fin 6) = a3 := rfl

/-- Entry 4 of a 6-vector literal. -/
lemma vec6_at4 {α : Type} (a0 a1 a2 a3 a4 a5 : α) :
    ![a0, a1, a2, a3, a4, a5] (4 : Fin 6) = a4 := rfl

/-- Entry 5 of a 6-vector literal. -/
lemma vec6_at5 {α : Type} (a0 a1 a2 a3 a4 a5 : α) :
    ![a0, a1, a2, a3, a4, a5] (5 : Fin 6) = a5 := rfl

/-- Value of the `Fin 6` literal 0 as a natural number. -/
lemma finval0 : ((0 : Fin 6) : ℕ) = 0 := rfl

/-- Value of the `Fin 6` literal 1 as a natural number. -/
lemma finval1 : ((1 : Fin 6) : ℕ) = 1 := rfl

/-- Value of the `Fin 6` literal 2 as a natural number. -/
lemma finval2 : ((2 : Fin 6) : ℕ) = 2 := rfl

/-- Value of the `Fin 6` literal 3 as a natural number. -/
lemma finval3 : ((3 : Fin 6) : ℕ) = 3 := rfl

/-- Value of the `Fin 6` literal 4 as a natural number. -/
lemma finval4 : ((4 : Fin 6) : ℕ) = 4 := rfl

/-- Value of the `Fin 6` literal 5 as a natural number. -/
lemma finval5 : ((5 : Fin 6) : ℕ) = 5 := rfl

/-- The observability stack the notebook actually builds:
`np.block([[C], [C @ A], [C @ A @ A]])`, three blocks. -/
def Wo {m : ℕ} (C : Matrix (Fin m) (Fin 6) ℝ) (A : Matrix (Fin 6) (Fin 6) ℝ) :
    Matrix (Fin 3 × Fin m) (Fin 6) ℝ :=
  Matrix.of fun p j => ![C, C * A, C * A * A] p.1 p.2 j

/-- The observability matrix as the claim describes it: stacking
`C, C*A, C*A^2, ..., C*A^5`, one block per state dimension. -/
def WoSpec {m : ℕ} (C : Matrix (Fin m) (Fin 6) ℝ)
    (A : Matrix (Fin 6) (Fin 6) ℝ) :
    Matrix (Fin 6 × Fin m) (Fin 6) ℝ :=
  Matrix.of fun p j =>
    ![C, C * A, C * A ^ 2, C * A ^ 3, C * A ^ 4, C * A ^ 5] p.1 p.2 j

/-- A standard-basis row vector with the 1 in column `k`. -/
def erow (k : ℕ) : Matrix (Fin 1) (Fin 6) ℝ :=
  Matrix.of fun _ j => if (j : ℕ) = k then 1 else 0

/-- A concrete single-output observation matrix (reads the first state). -/
def Cex : Matrix (Fin 1) (Fin 6) ℝ := erow 0

/-- A concrete state matrix: the nilpotent shift, a minimal observable
system from `Cex`. -/
def Aex : Matrix (Fin 6) (Fin 6) ℝ :=
  Matrix.of fun i j => if (i : ℕ) + 1 = (j : ℕ) then 1 else 0

/-- A concrete nonzero state direction invisible to the 3-block stack. -/
def vex : Fin 6 → ℝ := fun j => if (j : ℕ) = 3 then 1 else 0

/-- Multiplying a basis row by the shift moves the 1 one column right. -/
lemma rowShift (k : ℕ) : erow k * Aex = erow (k + 1) := by
  ext i j
  simp only [erow, Aex, Matrix.mul_apply, Matrix.of_apply, Fin.sum_univ_six,
    finval0, finval1, finval2, finval3, finval4, finval5]
  fin_cases j <;>
    norm_num <;>
    split_ifs <;>
    first
      | rfl
      | omega

/-- Row `C * A` for the concrete example. -/
lemma CAex1 : Cex * Aex = erow 1 := rowShift 0

/-- Row `C * A ^ 2` for the concrete example. -/
lemma CAex2 : Cex * Aex ^ (2 : ℕ) = erow 2 := by
  have h : Aex ^ (2 : ℕ) = Aex ^ (1 : ℕ) * Aex := pow_succ Aex 1
  rw [h, pow_one, ← Matrix.mul_assoc, CAex1]
  exact rowShift 1

/-- Row `C * A ^ 3` for the concrete example. -/
lemma CAex3 : Cex * Aex ^ (3 : ℕ) = erow 3 := by
  have h : Aex ^ (3 : ℕ) = Aex ^ (2 : ℕ) * Aex := pow_succ Aex 2
  rw [h, ← Matrix.mul_assoc, CAex2]
  exact rowShift 2

/-- Row `C * A ^ 4` for the concrete example. -/
lemma CAex4 : Cex * Aex ^ (4 : ℕ) = erow 4 := by
  have h : Aex ^ (4 : ℕ) = Aex ^ (3 : ℕ) * Aex := pow_succ Aex 3
  rw [h, ← Matrix.mul_assoc, CAex3]
  exact rowShift 3

/-- Row `C * A ^ 5` for the concrete example. -/
lemma CAex5 : Cex * Aex ^ (5 : ℕ) = erow 5 := by
  have h : Aex ^ (5 : ℕ) = Aex ^ (4 : ℕ) * Aex := pow_succ Aex 4
  rw [h, ← Matrix.mul_assoc, CAex4]
  exact rowShift 4

/-- C3 (code-bug evidence): the notebook's observability stack `Wo` has
only the three blocks `C, C*A, C*A*A`.  At the concrete observable pair
`(Cex, Aex)` it annihilates the nonzero direction `vex` (so it cannot have
full column rank 6), while the claimed six-block observability matrix
`WoSpec` does have rank 6.  The code's stack is therefore not the matrix
the claim describes, and its rank is only printed, never enforced. -/
theorem observability_stack_has_three_blocks_not_six :
    (Wo Cex Aex).mulVec vex = 0 ∧
    vex ≠ 0 ∧
    (WoSpec Cex Aex).rank = 6 := by
  have hCAA : Cex * Aex * Aex = erow 2 := by rw [CAex1]; exact rowShift 1
  refine ⟨?_, ?_, ?_⟩
  · funext p
    obtain ⟨i, q⟩ := p
    fin_cases i <;> fin_cases q
    · simp only [Wo, Matrix.mulVec, Matrix.dotProduct, Matrix.of_apply,
        Fin.sum_univ_six, Matrix.cons_val_zero, Matrix.cons_val_one,
        Matrix.head_cons, Matrix.vecHead, Matrix.vecTail]
      simp [Cex, erow, vex, finval0, finval1, finval2, finval3, finval4,
        finval5]
    · simp only [Wo, Matrix.mulVec, Matrix.dotProduct, Matrix.of_apply,
        Fin.sum_univ_six, Matrix.cons_val_zero, Matrix.cons_val_one,
        Matrix.head_cons, Matrix.vecHead, Matrix.vecTail]
      rw [CAex1]
      simp [erow, vex, finval0, finval1, finval2, finval3, finval4, finval5]
    · simp only [Wo, Matrix.mulVec, Matrix.dotProduct, Matrix.of_apply,
        Fin.sum_univ_six, Matrix.cons_val_zero, Matrix.cons_val_one,
        Matrix.head_cons, Matrix.vecHead, Matrix.vecTail]
      rw [hCAA]
      simp [erow, vex, finval0, finval1, finval2, finval3, finval4, finval5]
  · intro h
    have h3 := congrFun h 3
    simp [vex, finval3] at h3
  · have hinj : Function.Injective (WoSpec Cex Aex).mulVecLin := by
      intro v w hvw
      have h0 := congrFun hvw ((0 : Fin 6), (0 : Fin 1))
      have h1 := congrFun hvw ((1 : Fin 6), (0 : Fin 1))
      have h2 := congrFun hvw ((2 : Fin 6), (0 : Fin 1))
      have h3 := congrFun hvw ((3 : Fin 6), (0 : Fin 1))
      have h4 := congrFun hvw ((4 : Fin 6), (0 : Fin 1))
      have h5 := congrFun hvw ((5 : Fin 6), (0 : Fin 1))
      simp only [WoSpec, Matrix.mulVecLin_apply, Matrix.mulVec,
        Matrix.dotProduct, Matrix.of_apply, Fin.sum_univ_six,
        Matrix.cons_val_zero, Matrix.cons_val_one, Matrix.head_cons,
        vec6_at2, vec6_at3, vec6_at4, vec6_at5] at h0 h1 h2 h3 h4 h5
      rw [CAex1] at h1
      rw [CAex2] at h2
      rw [CAex3] at h3
      rw [CAex4] at h4
      rw [CAex5] at h5
      simp only [Cex, erow, Matrix.of_apply, finval0, finval1, finval2,
        finval3, finval4, finval5] at h0 h1 h2 h3 h4 h5
      norm_num at h0 h1 h2 h3 h4 h5
      funext k
      fin_cases k
      · exact h0
      · exact h1
      · exact h2
      · exact h3
      · exact h4
      · exact h5
    have hr : (WoSpec Cex Aex).rank =
        Module.finrank ℝ (LinearMap.range (WoSpec Cex Aex).mulVecLin) := rfl
    rw [hr, LinearMap.finrank_range_of_inj hinj, Module.finrank_pi]
    rfl

/-! ## Controller interface (notebook cell bf439d71)

The notebook defines `class Controller` with methods `reset(self)` and
`run(self, t, star_meas)`; `run` documents `star_meas` as a 1d array of
length 14 whose entries at indices `2*i` and `2*i+1` are the image
coordinates `y_i` and `z_i` of star `i`, and returns four torques
(front, back, left, right), all zero in the template. -/

/-- The controller object; the notebook's class has no instance state. -/
structure Controller

/-- The `reset` method: does nothing. -/
def Controller.reset (c : Controller) : Unit := ()

/-- The `run` method: consumes the time and the flat length-14 star
measurement array, returns the four wheel torques (all zero in the
template). -/
def Controller.run (c : Controller) (t : ℝ) (star_meas : Fin 14 → ℝ) :
    ℝ × ℝ × ℝ × ℝ :=
  (0, 0, 0, 0)

/-- The methods of the Controller class besides the constructor. -/
def controllerMethods : List String := ["reset", "run"]

/-- The star catalog printed by the notebook: 7 stars with their right
ascension and declination. -/
def starCatalog : List (ℝ × ℝ) :=
  [(-0.10, -0.15), (0.00, -0.15), (0.10, -0.15), (0.00, 0.00),
   (-0.10, 0.15), (0.00, 0.15), (0.10, 0.15)]

/-- Number of stars. -/
def numStars : ℕ := starCatalog.length

/-- Index of star `i`'s y coordinate in the flat measurement array. -/
def starMeasIndexY (i : ℕ) : ℕ := 2 * i

/-- Index of star `i`'s z coordinate in the flat measurement array. -/
def starMeasIndexZ (i : ℕ) : ℕ := 2 * i + 1

/-- C8 counterexample: the controller class exposes no method named
`step`; its per-tick method is named `run`. -/
theorem controller_has_no_step_method : "step" ∉ controllerMethods := by
  decide

/-- C8 (amended): the controller object exposes exactly `reset()` and
`run(time, star_measurement_vector)` returning the four torques, where the
measurement vector is a flat sequence of length `2 * numStars = 14`
ordered `(y_i, z_i)` per star index `i`, with `y_i` at index `2*i` and
`z_i` at index `2*i + 1`; the template's `run` returns four zero
torques. -/
theorem controller_interface_reset_and_run :
    controllerMethods = ["reset", "run"] ∧
    2 * numStars = 14 ∧
    (∀ i : ℕ, starMeasIndexY i = 2 * i ∧ starMeasIndexZ i = 2 * i + 1) ∧
    (∀ (c : Controller) (t : ℝ) (meas : Fin 14 → ℝ),
      c.run t meas = (0, 0, 0, 0)) :=
  ⟨rfl, rfl, fun i => ⟨rfl, rfl⟩, fun c t meas => rfl⟩

/-- C7 (code-bug evidence): the claim's bit-identical `(A, B, C, D)` can
never be observed, because the `(C, D)` half is never computed: the
sensor-linearization cell takes its Jacobians from the empty 0 x 0
placeholder `g = sym.Matrix([])` (and has a syntax error, so it cannot
run), whereas the sensor Jacobians of a 7-star session would have
`2 * numStars = 14` measurement rows.  A placeholder with zero rows can
never supply them.  (The `(A, B)` half, `get_model`, is a pure
deterministic recomputation, so that part of the claim is not in
dispute.) -/
theorem sensor_jacobians_never_computed :
    g_placeholder_shape = (0, 0) ∧
    2 * numStars = 14 ∧
    g_placeholder_shape.1 ≠ 2 * numStars :=
  ⟨rfl, rfl, by decide⟩

end Spacecraft
